import Mathlib

/-!
Shallow embedding of the pagination-and-range-completion core of
`pse_api.py` (PSE API client): the page fetcher with retry, the
pagination walker, the coverage estimator, the expected-count
estimator, and (modelled from the spec, absent from the provided
source) the auto-split dispatcher's range splitter.

Machine-level conventions:
* Python `dict`-shaped JSON values are modelled by the inductive
  `PyJson`; Python `None` is `PyJson.null`.
* Uncaught Python exceptions are modelled with `Except PyErr`;
  functions that cannot raise return plain values.
* Calendar dates are modelled as integer day numbers; `datetime`
  values as integer second counts.  The difference of two dates in
  minutes is `1440 * (number of days apart)`, exactly as
  `timedelta.total_seconds() / 60` computes it.
* Python floats on the values reached here are exact, so real
  arithmetic is modelled with `Rat`; `int(x)` truncates toward zero.
* Observable effects of the fetcher (HTTP requests issued, sleeps
  performed, progress-callback invocations) are threaded explicitly
  through a `Trace` record.
-/

/-- Python errors that can escape the fetcher's `try` block
(`AttributeError` from calling `.get` on a non-dict, `TypeError`
from `len` of a non-sized value). -/
inductive PyErr where
  | attributeError
  | typeError
deriving DecidableEq, Repr

/-- A Python/JSON value as produced by `response.json()`. -/
inductive PyJson where
  | null
  | boolean (b : Bool)
  | num (n : Int)
  | str (s : String)
  | arr (xs : List PyJson)
  | obj (kvs : List (String × PyJson))

/-- Python truthiness of a JSON value (`if next_link:` etc.). -/
def pyTruthy : PyJson → Bool
  | .null => false
  | .boolean b => b
  | .num n => n != 0
  | .str s => !s.isEmpty
  | .arr xs => !xs.isEmpty
  | .obj kvs => !kvs.isEmpty

/-- `d.get(k, default)`: succeeds only on a dict; on any other value
Python raises `AttributeError` (there is no `.get` attribute). -/
def pyGet (j : PyJson) (k : String) (default : PyJson) : Except PyErr PyJson :=
  match j with
  | .obj kvs =>
      match kvs.lookup k with
      | some v => .ok v
      | none => .ok default
  | _ => .error .attributeError

/-- `len(x)`: defined for strings, lists and dicts; `TypeError`
otherwise. -/
def pyLen (j : PyJson) : Except PyErr Nat :=
  match j with
  | .str s => .ok s.length
  | .arr xs => .ok xs.length
  | .obj kvs => .ok kvs.length
  | _ => .error .typeError

/-- `all_records.extend(records)`: extends by any iterable (a list by
its elements, a string by its characters, a dict by its keys);
`TypeError` on a non-iterable. -/
def pyExtend (acc : List PyJson) (j : PyJson) : Except PyErr (List PyJson) :=
  match j with
  | .arr xs => .ok (acc ++ xs)
  | .str s => .ok (acc ++ s.data.map (fun c => PyJson.str (String.mk [c])))
  | .obj kvs => .ok (acc ++ kvs.map (fun kv => PyJson.str kv.1))
  | _ => .error .typeError

-- ===========================================================================
-- CONFIGURATION constants of pse_api.py
-- ===========================================================================

def PSE_API_BASE_URL : String := "https://api.raporty.pse.pl/api/gen-jw"

def MAX_RETRIES : Nat := 3

def RETRY_BACKOFF_MULTIPLIER : Nat := 2

def MIN_RETRY_DELAY : Nat := 1

def DEFAULT_PAGE_SIZE : Nat := 100000

def MAX_WARNING_LOGS : Nat := 5

def FILTER_TYPE_ALL : String := "Wszystkie dane"

def FILTER_TYPE_BY_POWER_PLANT : String := "Według elektrowni"

def FILTER_TYPE_BY_RESOURCE_CODE : String := "Według kodów jednostek"

-- ===========================================================================
-- Page Fetcher: fetch_pse_page
-- ===========================================================================

/-- Query parameters of the initial request
(`$filter`, `$orderby`, `$first`). -/
structure PseParams where
  filter : String
  orderby : String
  first : String

/-- Observable effects of a fetch run: number of HTTP requests issued,
the backoff delays slept, the `(url, with_params)` request log, and the
progress-callback invocation log `(page_number, cumulative_count)`. -/
structure Trace where
  attempts : Nat
  delays : List Nat
  reqs : List (PyJson × Bool)
  cbLog : List (Nat × Nat)

def Trace.init : Trace := ⟨0, [], [], []⟩

/-- The external world seen by one HTTP attempt: `none` models any
exception caught by the fetcher's `except` clause (transport failure,
non-2xx status via `raise_for_status`, undecodable body via
`json.JSONDecodeError`); `some body` models a 2xx response whose body
decoded to the JSON value `body`.  Indexed by the global attempt
counter. -/
def Transport := Nat → Option PyJson

/-- Success path of `fetch_pse_page` after `response.json()` returned
`data`: `records = data.get("value", [])`,
`next_link = data.get("nextLink", None)`, then the log line evaluates
`len(records)`; returns `(data, next_link, False)`.  `AttributeError`
and `TypeError` raised here are not caught by the `except` clause. -/
def processBody (data : PyJson) : Except PyErr (PyJson × PyJson × Bool) :=
  match pyGet data "value" (.arr []) with
  | .error e => .error e
  | .ok records =>
    match pyGet data "nextLink" .null with
    | .error e => .error e
    | .ok next_link =>
      match pyLen records with
      | .error e => .error e
      | .ok _ => .ok (data, next_link, false)

/-- Retry loop of `fetch_pse_page`.  `fuel` maintains the invariant
`fuel = MAX_RETRIES - retry_count`, so `fuel > 0` is exactly the
Python guard `retry_count < MAX_RETRIES`.  Each call issues one HTTP
request (recorded in the trace, consulting the transport at the
current global attempt index); on a caught failure it either sleeps
`MIN_RETRY_DELAY * RETRY_BACKOFF_MULTIPLIER ** retry_count` and
recurses, or returns `(None, None, True)` after exhausting retries. -/
def fetchPageAux (T : Transport) (url : PyJson) (params : Option PseParams)
    (isFirst : Bool) :
    Nat → Nat → Trace → Except PyErr (PyJson × PyJson × Bool) × Trace
  | fuel, retryCount, tr =>
    let withParams := isFirst && params.isSome
    let tr1 : Trace := { tr with
      attempts := tr.attempts + 1
      reqs := tr.reqs ++ [(url, withParams)] }
    match T tr.attempts with
    | some body => (processBody body, tr1)
    | none =>
      match fuel with
      | 0 => (.ok (.null, .null, true), tr1)
      | fuel' + 1 =>
        let delay := MIN_RETRY_DELAY * RETRY_BACKOFF_MULTIPLIER ^ retryCount
        fetchPageAux T url params isFirst fuel' (retryCount + 1)
          { tr1 with delays := tr1.delays ++ [delay] }

/-- `fetch_pse_page(url, params, is_first_request, retry_count)`. -/
def fetch_pse_page (T : Transport) (url : PyJson) (params : Option PseParams)
    (isFirst : Bool) (retryCount : Nat) (tr : Trace) :
    Except PyErr (PyJson × PyJson × Bool) × Trace :=
  fetchPageAux T url params isFirst (MAX_RETRIES - retryCount) retryCount tr

-- ===========================================================================
-- Pagination Walker: fetch_all_pse_data
-- ===========================================================================

/-- One ASCII single-quote character, as used by the OData filter
string. -/
def odataQuote : String := String.singleton (Char.ofNat 39)

/-- Stand-in for `date.isoformat()` on a date modelled as an integer
day number (the exact rendering is a Python stdlib detail no claim
depends on). -/
def dateIso (d : Int) : String := toString d

/-- Body of the `while current_url:` loop of `fetch_all_pse_data`.
`pageFuel` bounds the number of loop iterations (the Python loop is
unbounded if the server keeps returning fresh `nextLink`s); every
result below is reached within the supplied fuel.  On
`error_occurred` the loop `break`s, returning the records accumulated
so far; the function's return value is the bare record list — nothing
else. -/
def fetchAllAux (T : Transport) (params : Option PseParams) :
    Nat → Option PyJson → Bool → List PyJson → Nat → Trace →
    Except PyErr (List PyJson) × Trace × Nat
  | 0, _, _, acc, pageCount, tr => (.ok acc, tr, pageCount)
  | _ + 1, none, _, acc, pageCount, tr => (.ok acc, tr, pageCount)
  | fuel + 1, some url, useParams, acc, pageCount, tr =>
    let pc := pageCount + 1
    let pr := fetch_pse_page T url (if useParams then params else none)
      useParams 0 tr
    match pr.1 with
    | .error e => (.error e, pr.2, pc)
    | .ok (data, next_link, errOcc) =>
      if errOcc then (.ok acc, pr.2, pc)
      else
        match pyGet data "value" (.arr []) with
        | .error e => (.error e, pr.2, pc)
        | .ok records =>
          match pyExtend acc records with
          | .error e => (.error e, pr.2, pc)
          | .ok acc' =>
            let tr2 : Trace :=
              { pr.2 with cbLog := pr.2.cbLog ++ [(pc, acc'.length)] }
            if pyTruthy next_link then
              fetchAllAux T params fuel (some next_link) false acc' pc tr2
            else
              (.ok acc', tr2, pc)

/-- `fetch_all_pse_data(start_date, end_date, page_size)`: builds the
OData `$filter`/`$orderby`/`$first` parameters and walks the pages
from `PSE_API_BASE_URL`, following `nextLink` verbatim with no
parameters.  Returns (record list, trace, page count). -/
def fetch_all_pse_data (T : Transport) (start_date end_date : Int)
    (page_size : Nat) (pageFuel : Nat) :
    Except PyErr (List PyJson) × Trace × Nat :=
  let filter_param :=
    "business_date ge " ++ odataQuote ++ dateIso start_date ++ odataQuote ++
    " and business_date le " ++ odataQuote ++ dateIso end_date ++ odataQuote
  let orderby_param :=
    "business_date asc,resource_code asc,operating_mode asc,dtime_utc asc"
  let params : PseParams :=
    { filter := filter_param, orderby := orderby_param,
      first := toString page_size }
  fetchAllAux T (some params) pageFuel (some (.str PSE_API_BASE_URL)) true
    [] 0 Trace.init

-- ===========================================================================
-- Facility Registry constants
-- ===========================================================================

/-- `POWER_PLANT_TO_RESOURCES`: static mapping from plant name to its
resource codes. -/
def POWER_PLANT_TO_RESOURCES : List (String × List String) := [
  ("Bełchatów", ["BEL 2-02", "BEL 2-03", "BEL 2-04", "BEL 2-05", "BEL 4-06", "BEL 4-07", "BEL 4-08", "BEL 4-09", "BEL 4-10", "BEL 4-11", "BEL 4-12", "BEL 4-14"]),
  ("Chorzów", ["CHZ21S01", "CHZ21S02"]),
  ("Dolna Odra", ["DOD 2-05", "DOD 4-07", "DOD 4-08", "DOD_2-06"]),
  ("EC Czechnica-2", ["CZN_1S01"]),
  ("EC Rzeszów", ["REC 1-01"]),
  ("EC Siekierki", ["WSIB1-07", "WSIB1-08", "WSIB1-09", "WSIB1-10"]),
  ("EC Stalowa Wola", ["STW42S12"]),
  ("EC Wrotków", ["LEC 1-01"]),
  ("EC Włocławek", ["WLC_2S01"]),
  ("EC Łódź-4", ["LD4 1-03"]),
  ("EC Żerań 2", ["WZE22-20", "WZE22S20"]),
  ("Gryfino", ["EGF_4S09", "EGF_4S10"]),
  ("Jaworzno 2 JWCD", ["JW2_4-07"]),
  ("Jaworzno 3", ["JW3 1-03", "JW3 2-01", "JW3 2-02", "JW3 2-04", "JW3 2-05", "JW3 2-06"]),
  ("Karolin 2", ["KAR 1-03", "KAR_1-02"]),
  ("Katowice", ["KAT 1-01"]),
  ("Kozienice 1", ["KOZ11S02", "KOZ11S06", "KOZ12S01", "KOZ12S03", "KOZ12S04", "KOZ12S05", "KOZ12S07", "KOZ12S08"]),
  ("Kozienice 2", ["KOZ24S09", "KOZ24S10", "KOZ24S11"]),
  ("Kraków Łęg", ["KLE 1-01", "KLE 1-02", "KLE 1-03", "KLE 1-04"]),
  ("Opole", ["OPL 1-01", "OPL 1-02", "OPL 4-03", "OPL 4-04", "OPL 4-05", "OPL 4-06"]),
  ("Ostrołęka B", ["OSB_1S03", "OSB_2S01", "OSB_2S02"]),
  ("Porąbka Żar", ["PZR 2-01", "PZR 2-02", "PZR 2-03", "PZR 2-04"]),
  ("Połaniec", ["POL_2S02", "POL_2S03", "POL_2S04", "POL_4S05", "POL_4S06", "POL_4S07"]),
  ("Połaniec 2-Pasywna", ["POL24S09"]),
  ("Pątnów 2", ["PAT24S09"]),
  ("Płock", ["PLO_4S01"]),
  ("Rybnik", ["RYB 2-05", "RYB 2-06", "RYB 4-07", "RYB 4-08"]),
  ("Siersza", ["SIA 1-01", "SIA 1-02"]),
  ("Skawina", ["SNA11S03", "SNA22S05", "SNA22S06"]),
  ("Turów", ["TUR 1-01", "TUR 2-02", "TUR 2-03", "TUR 2-04", "TUR 2-05", "TUR 2-06", "TUR 4-11"]),
  ("Wrocław", ["WROB1-02", "WROB1-03"]),
  ("Zielona Góra", ["ZGR22S01"]),
  ("Łagisza", ["LGA 4-10"]),
  ("Łaziska 3", ["LZA31-09", "LZA31-10", "LZA32-11", "LZA32-12"]),
  ("Żarnowiec", ["ZRN_4-01", "ZRN_4-02", "ZRN_4-03", "ZRN_4-04"])]

/-- `ALL_RESOURCE_CODES`: the flattened list of all known resource
codes. -/
def ALL_RESOURCE_CODES : List String := [
  "BEL 2-02", "BEL 2-03", "BEL 2-04", "BEL 2-05", "BEL 4-06", "BEL 4-07", "BEL 4-08", "BEL 4-09",
  "BEL 4-10", "BEL 4-11", "BEL 4-12", "BEL 4-14", "CHZ21S01", "CHZ21S02", "CZN_1S01", "DOD 2-05",
  "DOD 4-07", "DOD 4-08", "DOD_2-06", "EGF_4S09", "EGF_4S10", "JW2_4-07", "JW3 1-03", "JW3 2-01",
  "JW3 2-02", "JW3 2-04", "JW3 2-05", "JW3 2-06", "KAR 1-03", "KAR_1-02", "KAT 1-01", "KLE 1-01",
  "KLE 1-02", "KLE 1-03", "KLE 1-04", "KOZ11S02", "KOZ11S06", "KOZ12S01", "KOZ12S03", "KOZ12S04",
  "KOZ12S05", "KOZ12S07", "KOZ12S08", "KOZ24S09", "KOZ24S10", "KOZ24S11", "LD4 1-03", "LEC 1-01",
  "LGA 4-10", "LZA31-09", "LZA31-10", "LZA32-11", "LZA32-12", "OPL 1-01", "OPL 1-02", "OPL 4-03",
  "OPL 4-04", "OPL 4-05", "OPL 4-06", "OSB_1S03", "OSB_2S01", "OSB_2S02", "PAT24S09", "PLO_4S01",
  "POL24S09", "POL_2S02", "POL_2S03", "POL_2S04", "POL_4S05", "POL_4S06", "POL_4S07", "PZR 2-01",
  "PZR 2-02", "PZR 2-03", "PZR 2-04", "REC 1-01", "RYB 2-05", "RYB 2-06", "RYB 4-07", "RYB 4-08",
  "SIA 1-01", "SIA 1-02", "SNA11S03", "SNA22S05", "SNA22S06", "STW42S12", "TUR 1-01", "TUR 2-02",
  "TUR 2-03", "TUR 2-04", "TUR 2-05", "TUR 2-06", "TUR 4-11", "WLC_2S01", "WROB1-02", "WROB1-03",
  "WSIB1-07", "WSIB1-08", "WSIB1-09", "WSIB1-10", "WZE22-20", "WZE22S20", "ZGR22S01", "ZRN_4-01",
  "ZRN_4-02", "ZRN_4-03", "ZRN_4-04"]

-- ===========================================================================
-- Expected-Count Estimator: calculate_expected_intervals
-- ===========================================================================

/-- Python `int(q)` on a float/number: truncation toward zero. -/
def pyIntTrunc (q : Rat) : Int := Int.tdiv q.num q.den

/-- Python truthiness of an optional list argument (`None` and the
empty list are falsy). -/
def optListTruthy (l : Option (List String)) : Bool :=
  match l with
  | none => false
  | some xs => !xs.isEmpty

/-- The `set()` built by the `FILTER_TYPE_BY_POWER_PLANT` branch: the
union of `POWER_PLANT_TO_RESOURCES[plant]` over selected plants that
are present in the mapping; its `len` is the number of distinct codes
collected. -/
def plantResourceCount (plants : List String) : Nat :=
  ((plants.filterMap (fun p => POWER_PLANT_TO_RESOURCES.lookup p)).flatten).dedup.length

/-- `calculate_expected_intervals(start_date, end_date, filter_type,
selected_power_plants, selected_resources)`: number of 15-minute
intervals computed as `int(total_minutes / 15) + 1` from the date
difference, times the resource count implied by the filter; a
non-ALL filter with a falsy selection, or an unrecognized
`filter_type`, falls through to the default branch using all
resources. -/
def calculate_expected_intervals (start_date end_date : Int)
    (filter_type : String)
    (selected_power_plants : Option (List String))
    (selected_resources : Option (List String)) : Int :=
  let total_minutes : Rat := ((end_date - start_date : Int) : Rat) * 1440
  let time_intervals : Int := pyIntTrunc (total_minutes / 15) + 1
  let num_resources : Int :=
    if filter_type = FILTER_TYPE_ALL then
      (ALL_RESOURCE_CODES.length : Int)
    else if filter_type = FILTER_TYPE_BY_POWER_PLANT ∧
        optListTruthy selected_power_plants = true then
      (plantResourceCount (selected_power_plants.getD []) : Int)
    else if filter_type = FILTER_TYPE_BY_RESOURCE_CODE ∧
        optListTruthy selected_resources = true then
      ((selected_resources.getD []).length : Int)
    else
      (ALL_RESOURCE_CODES.length : Int)
  time_intervals * num_resources

-- ===========================================================================
-- Coverage Estimator: calculate_time_coverage
-- ===========================================================================

/-- A record as seen by the coverage estimator: the two timestamp
fields it reads (`None` models a missing field; all other fields are
irrelevant here). -/
structure PseRecord where
  dtime : Option String
  dtime_utc : Option String

/-- Python truthiness of `item.get("dtime")` (a missing field or an
empty string is falsy). -/
def strOptTruthy (s : Option String) : Bool :=
  match s with
  | none => false
  | some v => !v.isEmpty

/-- The list comprehension of `calculate_time_coverage`:
`item.get("dtime") or item.get("dtime_utc")` for each record, kept
only when the resulting value is truthy. -/
def dtimeStrings (data : List PseRecord) : List String :=
  data.filterMap (fun r =>
    let v := if strOptTruthy r.dtime then r.dtime else r.dtime_utc
    match v with
    | some s => if s.isEmpty then none else some s
    | none => none)

/-- The timestamps of a record list that survive parsing
(`datetime.strptime` is the injected `parse`; `none` models a
`ValueError`/`TypeError`, i.e. a skipped malformed value). -/
def parsedDtimes (parse : String → Option Int) (data : List PseRecord) :
    List Int :=
  (dtimeStrings data).filterMap parse

/-- `calculate_time_coverage(all_data, start_date, end_date)`:
datetimes are integer second counts, the fraction is exact rational
arithmetic.  Returns `(progress, earliest, latest)` with
`progress = max(min(covered/total, 1.0), 0.0)` when the total span is
positive and `0.0` otherwise; `(0.0, None, None)` when no record
yields a valid timestamp. -/
def calculate_time_coverage (parse : String → Option Int)
    (all_data : List PseRecord) (start_date end_date : Int) :
    Rat × Option Int × Option Int :=
  if all_data.isEmpty then (0, none, none)
  else if (dtimeStrings all_data).isEmpty then (0, none, none)
  else
    match parsedDtimes parse all_data with
    | [] => (0, none, none)
    | x :: rest =>
      let earliest := rest.foldl min x
      let latest := rest.foldl max x
      let total_span : Rat := ((end_date - start_date : Int) : Rat)
      let covered_span : Rat := ((latest - start_date : Int) : Rat)
      let progress : Rat :=
        if total_span > 0 then min (covered_span / total_span) 1 else 0
      (max progress 0, some earliest, some latest)

-- ===========================================================================
-- Auto-Split Dispatcher (spec-modelled range splitter)
-- ===========================================================================

/-- Modelled from the spec: `fetch_pse_data_with_auto_split` and its
ceiling `MAX_EXPECTED_ENTRIES` are imported from `pse_api` by the UI
layer but are missing from the provided `pse_api.py`.  Following the
spec's splitting policy, the number of sub-ranges is
`ceil(expected_total / MAX_EXPECTED_ENTRIES)` (at least one; a range
already under the ceiling stays whole). -/
def numSubRanges (maxExpectedEntries : Nat) (expectedTotal : Int) : Nat :=
  max 1 ((expectedTotal.toNat + maxExpectedEntries - 1) / maxExpectedEntries)

/-- Modelled from the spec: the sub-ranges produced by the auto-split
dispatcher for `[s, e]` (inclusive integer day numbers) given the
expected record count of the whole range — the date span divided into
`numSubRanges` contiguous day-aligned chunks of equal length, the
last chunk absorbing the remainder. -/
def autoSplitSubRanges (maxExpectedEntries : Nat) (s e : Int)
    (expectedTotal : Int) : List (Int × Int) :=
  let n := numSubRanges maxExpectedEntries expectedTotal
  let totalDays := (e - s + 1).toNat
  let chunk := totalDays / n
  (List.range n).map (fun (i : Nat) =>
    (s + (i : Int) * (chunk : Int),
     if i = n - 1 then e else s + ((i : Int) + 1) * (chunk : Int) - 1))

lemma pyIntTrunc_intCast (m : Int) : pyIntTrunc ((m : Int) : Rat) = m := by
  unfold pyIntTrunc
  rw [Rat.num_intCast, Rat.den_intCast]
  exact_mod_cast Int.tdiv_one m

lemma all_resource_codes_length : ALL_RESOURCE_CODES.length = 107 := by rfl

/-- Characterization of the ALL branch: the estimator returns
`(96 * (end - start) + 1)` fifteen-minute intervals times the number
of known resource codes. -/
lemma cei_all_eq (s e : Int) :
    calculate_expected_intervals s e FILTER_TYPE_ALL none none
      = (96 * (e - s) + 1) * (ALL_RESOURCE_CODES.length : Int) := by
  unfold calculate_expected_intervals
  have h15 : (((e - s : Int) : Rat) * 1440) / 15 = ((96 * (e - s) : Int) : Rat) := by
    push_cast; ring
  simp only [h15, pyIntTrunc_intCast, if_pos rfl]
  simp

/-- C4: for start ≤ end with filter ALL, the estimator returns
`(floor((end - start in minutes) / 15) + 1) * len(ALL_RESOURCE_CODES)`. -/
theorem expected_intervals_all_formula (s e : Int) (_h : s ≤ e) :
    calculate_expected_intervals s e FILTER_TYPE_ALL none none
      = (⌊(((e - s : Int) : Rat) * 1440) / 15⌋ + 1)
          * (ALL_RESOURCE_CODES.length : Int) := by
  have h15 : (((e - s : Int) : Rat) * 1440) / 15 = ((96 * (e - s) : Int) : Rat) := by
    push_cast; ring
  rw [cei_all_eq, h15, Int.floor_intCast]

theorem expected_intervals_all_formula_witness :
    calculate_expected_intervals 0 1 FILTER_TYPE_ALL none none
      = (⌊((((1 : Int) - 0 : Int) : Rat) * 1440) / 15⌋ + 1)
          * (ALL_RESOURCE_CODES.length : Int) :=
  expected_intervals_all_formula 0 1 (by decide)

/-- C3: on the single-day range (start = end) with filter ALL the
estimator returns `1 * len(ALL_RESOURCE_CODES)` — the date difference
is zero minutes, giving one interval — and not the
`97 * len(ALL_RESOURCE_CODES)` the spec scenario requires. -/
theorem expected_intervals_single_day (d : Int) :
    calculate_expected_intervals d d FILTER_TYPE_ALL none none
        = 1 * (ALL_RESOURCE_CODES.length : Int) ∧
      calculate_expected_intervals d d FILTER_TYPE_ALL none none
        ≠ 97 * (ALL_RESOURCE_CODES.length : Int) := by
  rw [cei_all_eq, all_resource_codes_length]
  constructor
  · have h1 : 96 * (d - d) + 1 = 1 := by ring
    rw [h1]
  · intro hcontra
    omega

/-- C10: with start strictly after end and filter ALL, the estimator
returns a negative total; start one day after end yields
`-95 * len(ALL_RESOURCE_CODES)`. -/
theorem expected_intervals_inverted_negative (s e : Int) (h : e < s) :
    calculate_expected_intervals s e FILTER_TYPE_ALL none none < 0 ∧
      (s = e + 1 →
        calculate_expected_intervals s e FILTER_TYPE_ALL none none
          = (-95) * (ALL_RESOURCE_CODES.length : Int)) := by
  rw [cei_all_eq]
  constructor
  · have h1 : 96 * (e - s) + 1 ≤ -95 := by omega
    have h2 : (0 : Int) < (ALL_RESOURCE_CODES.length : Int) := by
      rw [all_resource_codes_length]; norm_num
    exact mul_neg_of_neg_of_pos (by omega) h2
  · intro hs
    subst hs
    have h1 : 96 * (e - (e + 1)) + 1 = -95 := by ring
    rw [h1]

theorem expected_intervals_inverted_negative_witness :
    calculate_expected_intervals 1 0 FILTER_TYPE_ALL none none < 0 ∧
      ((1 : Int) = 0 + 1 →
        calculate_expected_intervals 1 0 FILTER_TYPE_ALL none none
          = (-95) * (ALL_RESOURCE_CODES.length : Int)) :=
  expected_intervals_inverted_negative 1 0 (by decide)

/-- C9: a `BY_POWER_PLANT` filter with a missing or empty plant
selection, a `BY_RESOURCE_CODE` filter with a missing or empty
resource selection, and any unrecognized `filter_type` string all
fall through to the default branch, multiplying by the total known
resource count. -/
theorem expected_intervals_fallback_to_all (s e : Int) (ft : String)
    (sel res : Option (List String))
    (h : (ft = FILTER_TYPE_BY_POWER_PLANT ∧ optListTruthy sel = false) ∨
         (ft = FILTER_TYPE_BY_RESOURCE_CODE ∧ optListTruthy res = false) ∨
         (ft ≠ FILTER_TYPE_ALL ∧ ft ≠ FILTER_TYPE_BY_POWER_PLANT ∧
           ft ≠ FILTER_TYPE_BY_RESOURCE_CODE)) :
    calculate_expected_intervals s e ft sel res
      = (96 * (e - s) + 1) * (ALL_RESOURCE_CODES.length : Int) := by
  unfold calculate_expected_intervals
  have h15 : (((e - s : Int) : Rat) * 1440) / 15 = ((96 * (e - s) : Int) : Rat) := by
    push_cast; ring
  simp only [h15, pyIntTrunc_intCast]
  rcases h with ⟨rfl, hsel⟩ | ⟨rfl, hres⟩ | ⟨h1, h2, h3⟩
  · rw [if_neg (by decide), if_neg (by simp [hsel]),
      if_neg (fun hc =>
        (by decide : FILTER_TYPE_BY_POWER_PLANT ≠ FILTER_TYPE_BY_RESOURCE_CODE)
          hc.1)]
  · rw [if_neg (by decide),
      if_neg (fun hc =>
        (by decide : FILTER_TYPE_BY_RESOURCE_CODE ≠ FILTER_TYPE_BY_POWER_PLANT)
          hc.1),
      if_neg (by simp [hres])]
  · rw [if_neg h1, if_neg (by simp [h2]), if_neg (by simp [h3])]

theorem expected_intervals_fallback_to_all_witness :
    calculate_expected_intervals 0 1 FILTER_TYPE_BY_POWER_PLANT (some []) none
      = (96 * ((1 : Int) - 0) + 1) * (ALL_RESOURCE_CODES.length : Int) :=
  expected_intervals_fallback_to_all 0 1 FILTER_TYPE_BY_POWER_PLANT (some [])
    none (Or.inl ⟨rfl, rfl⟩)

/-- C5: a Page Fetcher backed by a transport failing on every attempt
makes exactly `MAX_RETRIES + 1 = 4` HTTP attempts, sleeps the
exponential backoff series `[1, 2, 4]` (total 7), and returns with
`error_flag = true` and no data. -/
theorem fetch_page_retry_exhaustion (T : Transport) (hT : ∀ n, T n = none)
    (url : PyJson) (params : Option PseParams) (isFirst : Bool) :
    (fetch_pse_page T url params isFirst 0 Trace.init).1
        = .ok (.null, .null, true) ∧
      (fetch_pse_page T url params isFirst 0 Trace.init).2.attempts
        = MAX_RETRIES + 1 ∧
      (fetch_pse_page T url params isFirst 0 Trace.init).2.delays = [1, 2, 4] ∧
      (fetch_pse_page T url params isFirst 0 Trace.init).2.delays.sum = 7 := by
  have hrun : fetch_pse_page T url params isFirst 0 Trace.init
      = (.ok (.null, .null, true),
         { attempts := 4, delays := [1, 2, 4],
           reqs := [(url, isFirst && params.isSome), (url, isFirst && params.isSome),
                    (url, isFirst && params.isSome), (url, isFirst && params.isSome)],
           cbLog := [] }) := by
    simp [fetch_pse_page, fetchPageAux, hT, Trace.init, MAX_RETRIES,
      MIN_RETRY_DELAY, RETRY_BACKOFF_MULTIPLIER]
  rw [hrun]
  refine ⟨rfl, rfl, rfl, rfl⟩

theorem fetch_page_retry_exhaustion_witness :
    (fetch_pse_page (fun _ => none) (.str PSE_API_BASE_URL) none true 0
          Trace.init).1
        = .ok (.null, .null, true) ∧
      (fetch_pse_page (fun _ => none) (.str PSE_API_BASE_URL) none true 0
          Trace.init).2.attempts = MAX_RETRIES + 1 ∧
      (fetch_pse_page (fun _ => none) (.str PSE_API_BASE_URL) none true 0
          Trace.init).2.delays = [1, 2, 4] ∧
      (fetch_pse_page (fun _ => none) (.str PSE_API_BASE_URL) none true 0
          Trace.init).2.delays.sum = 7 :=
  fetch_page_retry_exhaustion (fun _ => none) (fun _ => rfl)
    (.str PSE_API_BASE_URL) none true

/-- C6 counterexample: a transport answering every attempt with a 2xx
response whose body is the valid JSON array `[]` makes
`fetch_pse_page` raise an uncaught `AttributeError`
(`data.get("value", [])` on a non-dict) past its boundary. -/
theorem fetch_page_raises_on_nonobject_body :
    (fetch_pse_page (fun _ => some (.arr [])) (.str PSE_API_BASE_URL) none
        true 0 Trace.init).1
      = .error .attributeError := rfl

/-- A value `len()` accepts: strings, lists and dicts. -/
def hasPyLen : PyJson → Bool
  | .str _ => true
  | .arr _ => true
  | .obj _ => true
  | _ => false

/-- A response body the fetcher's success path can digest without
raising: a JSON object whose `value` member, when present, supports
`len()` (absence defaults to the empty list). -/
def bodyWellFormed : PyJson → Bool
  | .obj kvs =>
    (match kvs.lookup "value" with
     | some v => hasPyLen v
     | none => true)
  | _ => false

/-- A transport whose every 2xx body is well-formed (attempts may
still fail arbitrarily). -/
def TransportWellFormed (T : Transport) : Prop :=
  ∀ n b, T n = some b → bodyWellFormed b = true

lemma pyGet_obj (kvs : List (String × PyJson)) (k : String) (default : PyJson) :
    pyGet (.obj kvs) k default
      = .ok (match kvs.lookup k with | some v => v | none => default) := by
  cases hl : kvs.lookup k <;> simp [pyGet, hl]

lemma processBody_ok_of_wellFormed (b : PyJson) (hb : bodyWellFormed b = true) :
    ∃ r, processBody b = .ok r := by
  match b with
  | .obj kvs =>
    have hrec : ∃ n,
        pyLen (match kvs.lookup "value" with | some v => v | none => .arr [])
          = .ok n := by
      cases hv : kvs.lookup "value" with
      | none => exact ⟨0, rfl⟩
      | some v =>
        have hlen : hasPyLen v = true := by
          simpa [bodyWellFormed, hv] using hb
        match v, hlen with
        | .str s, _ => exact ⟨_, rfl⟩
        | .arr xs, _ => exact ⟨_, rfl⟩
        | .obj kvs2, _ => exact ⟨_, rfl⟩
    obtain ⟨n, hn⟩ := hrec
    exact ⟨(.obj kvs,
        (match kvs.lookup "nextLink" with | some v => v | none => PyJson.null),
        false), by
      unfold processBody
      rw [pyGet_obj, pyGet_obj]
      simp only [hn]⟩
  | .null => simp [bodyWellFormed] at hb
  | .boolean b2 => simp [bodyWellFormed] at hb
  | .num n => simp [bodyWellFormed] at hb
  | .str s => simp [bodyWellFormed] at hb
  | .arr xs => simp [bodyWellFormed] at hb

lemma fetchPageAux_no_raise (T : Transport) (hT : TransportWellFormed T)
    (url : PyJson) (params : Option PseParams) (isFirst : Bool) :
    ∀ (fuel retryCount : Nat) (tr : Trace),
      ∃ r, (fetchPageAux T url params isFirst fuel retryCount tr).1 = .ok r := by
  intro fuel
  induction fuel with
  | zero =>
    intro retryCount tr
    rw [fetchPageAux]
    cases hb : T tr.attempts with
    | none => exact ⟨_, rfl⟩
    | some body =>
      obtain ⟨r, hr⟩ := processBody_ok_of_wellFormed body (hT _ _ hb)
      exact ⟨r, by simp [hr]⟩
  | succ fuel ih =>
    intro retryCount tr
    rw [fetchPageAux]
    cases hb : T tr.attempts with
    | none => exact ih _ _
    | some body =>
      obtain ⟨r, hr⟩ := processBody_ok_of_wellFormed body (hT _ _ hb)
      exact ⟨r, by simp [hr]⟩

/-- C6 amended: for every transport whose 2xx bodies are JSON objects
with a `len()`-sized (or absent) `value` member, `fetch_pse_page`
never raises — every failure is signaled through the returned error
flag.  (A 2xx body that is valid JSON but not an object raises
`AttributeError`, per `fetch_page_raises_on_nonobject_body`.) -/
theorem fetch_page_no_raise_on_wellformed_bodies (T : Transport)
    (hT : TransportWellFormed T) (url : PyJson) (params : Option PseParams)
    (isFirst : Bool) (retryCount : Nat) (tr : Trace) :
    ∃ r, (fetch_pse_page T url params isFirst retryCount tr).1 = .ok r :=
  fetchPageAux_no_raise T hT url params isFirst _ _ _

theorem fetch_page_no_raise_on_wellformed_bodies_witness :
    ∃ r, (fetch_pse_page (fun _ => some (.obj [("value", .arr [])]))
        (.str PSE_API_BASE_URL) none true 0 Trace.init).1 = .ok r :=
  fetch_page_no_raise_on_wellformed_bodies
    (fun _ => some (.obj [("value", .arr [])]))
    (fun n b hb => by injection hb with hb2; subst hb2; rfl)
    (.str PSE_API_BASE_URL) none true 0 Trace.init

/-- C1 counterexample: the walker backed by a transport failing every
attempt returns exactly the same value — the bare empty record
list — as one backed by a transport that succeeds with zero
records and no continuation; the return value carries no failure
indicator, so a caller cannot tell the two apart. -/
theorem fetch_all_failure_indistinguishable_from_empty :
    (fetch_all_pse_data (fun _ => none) 0 0 DEFAULT_PAGE_SIZE 10).1
        = .ok ([] : List PyJson) ∧
      (fetch_all_pse_data (fun _ => some (.obj [("value", .arr [])])) 0 0
          DEFAULT_PAGE_SIZE 10).1 = .ok ([] : List PyJson) ∧
      (fetch_all_pse_data (fun _ => none) 0 0 DEFAULT_PAGE_SIZE 10).1
        = (fetch_all_pse_data (fun _ => some (.obj [("value", .arr [])])) 0 0
            DEFAULT_PAGE_SIZE 10).1 :=
  ⟨rfl, rfl, rfl⟩

/-- C1 amended: when a page fetch exhausts retries
(`error_flag = true`), the walker `break`s and returns exactly the
records accumulated from the previously successful pages — partial
progress is preserved — but the returned value is only that record
list, with no failure indicator attached. -/
theorem fetch_all_break_returns_accumulated (T : Transport)
    (params : Option PseParams) (fuel : Nat) (url : PyJson) (useParams : Bool)
    (acc : List PyJson) (pageCount : Nat) (tr : Trace) (d nl : PyJson)
    (h : (fetch_pse_page T url (if useParams then params else none) useParams 0
        tr).1 = .ok (d, nl, true)) :
    (fetchAllAux T params (fuel + 1) (some url) useParams acc pageCount tr).1
      = .ok acc := by
  rw [fetchAllAux]
  simp [h]

theorem fetch_all_break_returns_accumulated_witness :
    (fetchAllAux (fun _ => none) none 1 (some (.str "u")) false
        [.str "partial"] 0 Trace.init).1 = .ok [.str "partial"] :=
  fetch_all_break_returns_accumulated (fun _ => none) none 0 (.str "u") false
    [.str "partial"] 0 Trace.init .null .null rfl

/-- C7 counterexample: with start_date = 1 strictly after
end_date = 0, `fetch_all_pse_data` still issues an HTTP request (the
trace records one attempt) and completes as an ordinary success —
the inverted range is neither rejected before network activity nor
surfaced as an error. -/
theorem fetch_all_inverted_range_issues_request :
    (fetch_all_pse_data (fun _ => some (.obj [("value", .arr [])])) 1 0
          DEFAULT_PAGE_SIZE 10).2.1.attempts = 1 ∧
      (fetch_all_pse_data (fun _ => some (.obj [("value", .arr [])])) 1 0
          DEFAULT_PAGE_SIZE 10).1 = .ok ([] : List PyJson) :=
  ⟨rfl, rfl⟩

lemma fetchPageAux_attempts_ge (T : Transport) (url : PyJson)
    (params : Option PseParams) (isFirst : Bool) :
    ∀ (fuel retryCount : Nat) (tr : Trace),
      tr.attempts + 1
        ≤ (fetchPageAux T url params isFirst fuel retryCount tr).2.attempts := by
  intro fuel
  induction fuel with
  | zero =>
    intro retryCount tr
    rw [fetchPageAux]
    cases T tr.attempts <;> simp
  | succ fuel ih =>
    intro retryCount tr
    rw [fetchPageAux]
    cases T tr.attempts with
    | some body => simp
    | none =>
      refine le_trans ?_ (ih (retryCount + 1) _)
      simp

lemma fetchAllAux_attempts_mono (T : Transport) (params : Option PseParams) :
    ∀ (fuel : Nat) (cur : Option PyJson) (useParams : Bool)
      (acc : List PyJson) (pageCount : Nat) (tr : Trace),
      tr.attempts
        ≤ (fetchAllAux T params fuel cur useParams acc pageCount tr).2.1.attempts := by
  intro fuel
  induction fuel with
  | zero => intro cur useParams acc pageCount tr; rw [fetchAllAux]
  | succ fuel ih =>
    intro cur useParams acc pageCount tr
    match cur with
    | none => rw [fetchAllAux]
    | some url =>
      rw [fetchAllAux]
      have hpage := fetchPageAux_attempts_ge T url
        (if useParams then params else none) useParams
        (MAX_RETRIES - 0) 0 tr
      have hbase : tr.attempts
          ≤ (fetch_pse_page T url (if useParams then params else none)
              useParams 0 tr).2.attempts := by
        refine le_trans (Nat.le_succ _) ?_
        exact hpage
      cases hres : (fetch_pse_page T url (if useParams then params else none)
          useParams 0 tr).1 with
      | error e => simpa [hres] using hbase
      | ok triple =>
        obtain ⟨d, nl, errOcc⟩ := triple
        cases errOcc with
        | true => simpa [hres] using hbase
        | false =>
          cases hrec : pyGet d "value" (.arr []) with
          | error e => simpa [hres, hrec] using hbase
          | ok records =>
            cases hext : pyExtend acc records with
            | error e => simpa [hres, hrec, hext] using hbase
            | ok acc2 =>
              by_cases htok : pyTruthy nl = true
              · have := ih (some nl) false acc2 (pageCount + 1)
                  { (fetch_pse_page T url (if useParams then params else none)
                      useParams 0 tr).2 with
                    cbLog := (fetch_pse_page T url
                        (if useParams then params else none)
                        useParams 0 tr).2.cbLog ++ [(pageCount + 1, acc2.length)] }
                simp only [hres, hrec, hext, htok] at this ⊢
                simp only [fetch_pse_page] at this hbase ⊢
                exact le_trans hbase this
              · simp only [hres, hrec, hext, htok]
                simpa using hbase

lemma fetchAllAux_step_attempts_ge (T : Transport) (params : Option PseParams)
    (fuel : Nat) (url : PyJson) (useParams : Bool) (acc : List PyJson)
    (pageCount : Nat) (tr : Trace) :
    tr.attempts + 1
      ≤ (fetchAllAux T params (fuel + 1) (some url) useParams acc pageCount
          tr).2.1.attempts := by
  rw [fetchAllAux]
  have hpage := fetchPageAux_attempts_ge T url
    (if useParams then params else none) useParams (MAX_RETRIES - 0) 0 tr
  have hbase : tr.attempts + 1
      ≤ (fetch_pse_page T url (if useParams then params else none)
          useParams 0 tr).2.attempts := hpage
  cases hres : (fetch_pse_page T url (if useParams then params else none)
      useParams 0 tr).1 with
  | error e => simpa [hres] using hbase
  | ok triple =>
    obtain ⟨d, nl, errOcc⟩ := triple
    cases errOcc with
    | true => simpa [hres] using hbase
    | false =>
      cases hrec : pyGet d "value" (.arr []) with
      | error e => simpa [hres, hrec] using hbase
      | ok records =>
        cases hext : pyExtend acc records with
        | error e => simpa [hres, hrec, hext] using hbase
        | ok acc2 =>
          by_cases htok : pyTruthy nl = true
          · have hmono := fetchAllAux_attempts_mono T params fuel (some nl)
              false acc2 (pageCount + 1)
              { (fetch_pse_page T url (if useParams then params else none)
                  useParams 0 tr).2 with
                cbLog := (fetch_pse_page T url
                    (if useParams then params else none)
                    useParams 0 tr).2.cbLog ++ [(pageCount + 1, acc2.length)] }
            simp only [hres, hrec, hext, htok] at hmono ⊢
            simp only [fetch_pse_page] at hmono hbase ⊢
            exact le_trans hbase hmono
          · simp only [hres, hrec, hext, htok]
            simpa using hbase

/-- C7 amended: `fetch_all_pse_data` performs no range validation —
for every inverted range (start strictly after end) the walker still
issues at least one HTTP request before returning. -/
theorem fetch_all_no_inverted_range_rejection (T : Transport)
    (start_date end_date : Int) (page_size : Nat) (pageFuel : Nat)
    (_hinv : end_date < start_date) (hfuel : 0 < pageFuel) :
    1 ≤ (fetch_all_pse_data T start_date end_date page_size
        pageFuel).2.1.attempts := by
  obtain ⟨fuel, rfl⟩ : ∃ k, pageFuel = k + 1 :=
    ⟨pageFuel - 1, by omega⟩
  simp only [fetch_all_pse_data]
  simpa [Trace.init] using
    fetchAllAux_step_attempts_ge T _ fuel (.str PSE_API_BASE_URL) true [] 0
      Trace.init

theorem fetch_all_no_inverted_range_rejection_witness :
    1 ≤ (fetch_all_pse_data (fun _ => some (.obj [("value", .arr [])])) 1 0
        DEFAULT_PAGE_SIZE 1).2.1.attempts :=
  fetch_all_no_inverted_range_rejection
    (fun _ => some (.obj [("value", .arr [])])) 1 0 DEFAULT_PAGE_SIZE 1
    (by decide) (by decide)

/-- The clamped time-coverage fraction determined by the latest
observed timestamp. -/
def covFrac (s e latest : Int) : Rat :=
  max (if (((e - s : Int) : Rat)) > 0 then
         min ((((latest - s : Int)) : Rat) / (((e - s : Int)) : Rat)) 1
       else 0) 0

lemma covFrac_nonneg (s e latest : Int) : 0 ≤ covFrac s e latest :=
  le_max_right _ _

lemma covFrac_le_one (s e latest : Int) : covFrac s e latest ≤ 1 := by
  unfold covFrac
  refine max_le ?_ (by norm_num)
  split
  · exact min_le_right _ _
  · norm_num

lemma covFrac_mono (s e : Int) {l1 l2 : Int} (h : l1 ≤ l2) :
    covFrac s e l1 ≤ covFrac s e l2 := by
  unfold covFrac
  refine max_le_max ?_ le_rfl
  split
  · next htot =>
    refine min_le_min ?_ le_rfl
    refine (div_le_div_iff_of_pos_right htot).mpr ?_
    exact_mod_cast sub_le_sub_right h s
  · exact le_rfl

lemma le_foldl_max (l : List Int) (x : Int) : x ≤ l.foldl max x := by
  induction l generalizing x with
  | nil => exact le_rfl
  | cons y t ih => exact le_trans (le_max_left x y) (ih (max x y))

/-- The returned fraction depends only on the surviving parsed
timestamps: zero when none survive, otherwise the clamped fraction of
their maximum. -/
lemma coverage_fst_eq (parse : String → Option Int) (data : List PseRecord)
    (s e : Int) :
    (calculate_time_coverage parse data s e).1 =
      match parsedDtimes parse data with
      | [] => 0
      | x :: rest => covFrac s e (rest.foldl max x) := by
  unfold calculate_time_coverage
  by_cases hd : data.isEmpty
  · have : parsedDtimes parse data = [] := by
      unfold parsedDtimes dtimeStrings
      rw [List.isEmpty_iff.mp hd]
      rfl
    simp [hd, this]
  · by_cases hs : (dtimeStrings data).isEmpty
    · have : parsedDtimes parse data = [] := by
        unfold parsedDtimes
        rw [List.isEmpty_iff.mp hs]
        rfl
      simp [hd, hs, this]
    · simp only [hd, hs, if_false, Bool.false_eq_true]
      cases hp : parsedDtimes parse data with
      | nil => simp
      | cons x rest => simp [covFrac]

/-- C8: the coverage fraction always lies within `[0, 1]`, and for a
fixed range, appending records whose (surviving) timestamps are at
least as late as the existing ones never decreases the fraction. -/
theorem coverage_in_range_and_monotone :
    (∀ (parse : String → Option Int) (data : List PseRecord) (s e : Int),
        0 ≤ (calculate_time_coverage parse data s e).1 ∧
          (calculate_time_coverage parse data s e).1 ≤ 1) ∧
      (∀ (parse : String → Option Int) (xs ys : List PseRecord) (s e : Int),
        (∀ t ∈ parsedDtimes parse ys, ∀ u ∈ parsedDtimes parse xs, u ≤ t) →
          (calculate_time_coverage parse xs s e).1
            ≤ (calculate_time_coverage parse (xs ++ ys) s e).1) := by
  constructor
  · intro parse data s e
    rw [coverage_fst_eq]
    cases parsedDtimes parse data with
    | nil => exact ⟨le_rfl, by norm_num⟩
    | cons x rest => exact ⟨covFrac_nonneg _ _ _, covFrac_le_one _ _ _⟩
  · intro parse xs ys s e _hlater
    rw [coverage_fst_eq, coverage_fst_eq]
    have happ : parsedDtimes parse (xs ++ ys)
        = parsedDtimes parse xs ++ parsedDtimes parse ys := by
      unfold parsedDtimes dtimeStrings
      rw [List.filterMap_append, List.filterMap_append]
    rw [happ]
    cases hx : parsedDtimes parse xs with
    | nil =>
      cases parsedDtimes parse ys with
      | nil => exact le_rfl
      | cons y rest => exact covFrac_nonneg _ _ _
    | cons x rest =>
      simp only [List.cons_append]
      rw [List.foldl_append]
      exact covFrac_mono s e (le_foldl_max _ _)

theorem coverage_in_range_and_monotone_witness :
    (0 ≤ (calculate_time_coverage (fun st => some (st.length : Int))
          [⟨some "ab", none⟩] 0 8).1 ∧
        (calculate_time_coverage (fun st => some (st.length : Int))
          [⟨some "ab", none⟩] 0 8).1 ≤ 1) ∧
      (calculate_time_coverage (fun st => some (st.length : Int))
          [⟨some "ab", none⟩] 0 8).1
        ≤ (calculate_time_coverage (fun st => some (st.length : Int))
            ([⟨some "ab", none⟩] ++ [⟨some "abcd", none⟩]) 0 8).1 :=
  ⟨coverage_in_range_and_monotone.1 (fun st => some (st.length : Int))
      [⟨some "ab", none⟩] 0 8,
    coverage_in_range_and_monotone.2 (fun st => some (st.length : Int))
      [⟨some "ab", none⟩] [⟨some "abcd", none⟩] 0 8 (by decide)⟩

/-- C2: when the expected record count is exactly three times the
safety ceiling, the modelled dispatcher computes
`ceil(expected / ceiling) = 3` and splits a span of at least three
days into exactly three contiguous, day-aligned, non-overlapping
sub-ranges covering `[s, e]` exactly once, each sub-range's end
immediately preceding the next sub-range's start. -/
theorem auto_split_three_subranges (M : Nat) (hM : 0 < M) (s e : Int)
    (hdays : s + 2 ≤ e) :
    numSubRanges M (3 * (M : Int)) = 3 ∧
      ∃ c : Int, 1 ≤ c ∧
        autoSplitSubRanges M s e (3 * (M : Int))
          = [(s, s + c - 1), (s + c, s + 2 * c - 1), (s + 2 * c, e)] ∧
        s + c - 1 + 1 = s + c ∧ s + 2 * c - 1 + 1 = s + 2 * c ∧
        s ≤ s + c - 1 ∧ s + c ≤ s + 2 * c - 1 ∧ s + 2 * c ≤ e := by
  have htn : ((3 * (M : Int))).toNat = 3 * M := by omega
  have hn : numSubRanges M (3 * (M : Int)) = 3 := by
    unfold numSubRanges
    rw [htn]
    have h1 : 3 * M ≤ 3 * M + M - 1 := by omega
    have h2 : 3 * M + M - 1 < (3 + 1) * M := by omega
    rw [Nat.div_eq_of_lt_le h1 h2]
    rfl
  refine ⟨hn, ?_⟩
  have htd : (((e - s + 1).toNat : Nat) : Int) = e - s + 1 :=
    Int.toNat_of_nonneg (by omega)
  have htd3 : 3 ≤ (e - s + 1).toNat := by omega
  have hc1 : 1 ≤ (e - s + 1).toNat / 3 :=
    (Nat.one_le_div_iff (by norm_num)).mpr htd3
  have h3c : (e - s + 1).toNat / 3 * 3 ≤ (e - s + 1).toNat :=
    Nat.div_mul_le_self _ 3
  refine ⟨(((e - s + 1).toNat / 3 : Nat) : Int), ?_, ?_, ?_, ?_, ?_, ?_, ?_⟩
  · exact_mod_cast hc1
  · simp only [autoSplitSubRanges, hn]
    have hrange : List.range 3 = [0, 1, 2] := rfl
    rw [hrange]
    simp only [List.map_cons, List.map_nil]
    norm_num
  · omega
  · omega
  · omega
  · omega
  · omega

theorem auto_split_three_subranges_witness :
    numSubRanges 1 (3 * ((1 : Nat) : Int)) = 3 ∧
      ∃ c : Int, 1 ≤ c ∧
        autoSplitSubRanges 1 0 2 (3 * ((1 : Nat) : Int))
          = [(0, 0 + c - 1), (0 + c, 0 + 2 * c - 1), (0 + 2 * c, 2)] ∧
        (0 : Int) + c - 1 + 1 = 0 + c ∧ (0 : Int) + 2 * c - 1 + 1 = 0 + 2 * c ∧
        (0 : Int) ≤ 0 + c - 1 ∧ (0 : Int) + c ≤ 0 + 2 * c - 1 ∧
        (0 : Int) + 2 * c ≤ 2 :=
  auto_split_three_subranges 1 (by decide) 0 2 (by decide)
